import Mathlib

/-!
Verification of the Fonz/Spectacles validation engine specification against the
repository sources.  Components whose implementation files are absent from the
source tree (the SQL validator, the Looker API client and the spectacles CLI
entry point) are modelled from the specification; each such definition carries a
doc comment beginning `Modelled from the spec:`.  Components present in the tree
(`fonz/cli.py`, `spectacles/tracking.py`) are embedded directly.
-/

/-- A JSON value, the shape of Looker API payloads handled by the validator. -/
inductive Json where
  | null
  | bool (b : Bool)
  | num (n : Int)
  | str (s : String)
  | arr (xs : List Json)
  | obj (kvs : List (String × Json))
deriving Repr

/-- Dictionary lookup on a JSON value: `j["k"]` when `j` is an object holding
key `k`, absent otherwise (Python's `dict.get`). -/
def Json.lookup : Json → String → Option Json
  | .obj kvs, k => (kvs.find? (fun kv => kv.fst == k)).map (fun kv => kv.snd)
  | _, _ => none

/-- Python error classes the extraction contract can raise. -/
inductive PyErr where
  | typeError
  | keyError (k : String)
  | indexError
deriving Repr, DecidableEq

/-- The normalized error record produced by `_extract_error_details`:
a message and an optional SQL text. -/
structure ErrorDetails where
  message : String
  sql : Option String
deriving Repr, DecidableEq

/-- The `sql` field of a mapping error container: the string under key `"sql"`
when present, `None` otherwise. -/
def extract_sql (kvs : List (String × Json)) : Option String :=
  match (Json.obj kvs).lookup "sql" with
  | some (.str s) => some s
  | _ => none

/-- Modelled from the spec: `SqlValidator._extract_error_details` of the absent
`spectacles/validators.py` (spec 4.3 step 4).  The query result's `data` field
is the error container.  Mapping container: take the first entry of its
`errors` list; the message is the entry's `message`, space-joined with
`message_details` when that field is a string; a `message_details` value that
is neither a string nor JSON null raises a `TypeError`; a null value is treated
as absent, as pinned by the repository test
`tests/test_sql_validator.py::test_extract_error_details_no_message_details`;
`sql` is read from the container's `sql` field.  Sequence container: the
message is its first element and `sql` is `None`.  Any other container shape
raises a `TypeError`. -/
def extract_error_details (queryResult : Json) : Except PyErr ErrorDetails :=
  match queryResult.lookup "data" with
  | none => .error (.keyError "data")
  | some data =>
    match data with
    | .obj kvs =>
      match (Json.obj kvs).lookup "errors" with
      | some (.arr (first :: _)) =>
        let msg := match first.lookup "message" with
          | some (.str m) => m
          | _ => ""
        match first.lookup "message_details" with
        | none => .ok ⟨msg, extract_sql kvs⟩
        | some .null => .ok ⟨msg, extract_sql kvs⟩
        | some (.str d) => .ok ⟨msg ++ " " ++ d, extract_sql kvs⟩
        | some _ => .error .typeError
      | some (.arr []) => .error .indexError
      | _ => .error (.keyError "errors")
    | .arr (x :: _) =>
      match x with
      | .str m => .ok ⟨m, none⟩
      | _ => .error .typeError
    | .arr [] => .error .indexError
    | _ => .error .typeError

/-- The dict-shaped error payload of
`tests/test_sql_validator.py::test_extract_error_details_error_dict`. -/
def dictErrorPayload : Json :=
  .obj [("status", .str "error"),
        ("data", .obj
          [("errors", .arr [.obj
             [("message", .str "An error message."),
              ("message_details", .str "Shocking details.")]]),
           ("sql", .str "SELECT * FROM orders")])]

/-- The list-shaped error payload of
`tests/test_sql_validator.py::test_extract_error_details_error_list`. -/
def listErrorPayload : Json :=
  .obj [("status", .str "error"), ("data", .arr [.str "An error message."])]

/-- The bare-string error payload of
`tests/test_sql_validator.py::test_extract_error_details_error_other`. -/
def otherErrorPayload : Json :=
  .obj [("status", .str "error"), ("data", .str "some string")]

/-- C1: error-extraction contract of `_extract_error_details`.  For a query
result whose error container is a mapping holding an `errors` list, the
extracted message is the first entry's `message` space-joined with
`message_details` when that field is a string, and `sql` comes from the
payload's `sql` field; for a sequence container the message is its first
element and `sql` is `None`; a bare-string container raises a type error. -/
theorem extract_error_details_contract (qr : Json) :
    (∀ (kvs : List (String × Json)) (first : Json) (rest : List Json)
        (m d sqlv : String),
        qr.lookup "data" = some (.obj kvs) →
        (Json.obj kvs).lookup "errors" = some (.arr (first :: rest)) →
        first.lookup "message" = some (.str m) →
        first.lookup "message_details" = some (.str d) →
        (Json.obj kvs).lookup "sql" = some (.str sqlv) →
        extract_error_details qr = .ok ⟨m ++ " " ++ d, some sqlv⟩) ∧
    (∀ (m : String) (rest : List Json),
        qr.lookup "data" = some (.arr (Json.str m :: rest)) →
        extract_error_details qr = .ok ⟨m, none⟩) ∧
    (∀ s : String,
        qr.lookup "data" = some (.str s) →
        extract_error_details qr = .error .typeError) := by
  refine ⟨?_, ?_, ?_⟩
  · intro kvs first rest m d sqlv h1 h2 h3 h4 h5
    simp only [extract_error_details, h1, h2, h3, h4, extract_sql, h5]
  · intro m rest h1
    simp only [extract_error_details, h1]
  · intro s h1
    simp only [extract_error_details, h1]

/-- C1 witness: the contract evaluated on the three concrete payloads used by
the repository's extraction tests. -/
theorem extract_error_details_contract_witness :
    extract_error_details dictErrorPayload =
      .ok ⟨"An error message. Shocking details.", some "SELECT * FROM orders"⟩ ∧
    extract_error_details listErrorPayload = .ok ⟨"An error message.", none⟩ ∧
    extract_error_details otherErrorPayload = .error .typeError :=
  ⟨(extract_error_details_contract dictErrorPayload).1 _ _ _ _ _ _
      rfl rfl rfl rfl rfl,
   (extract_error_details_contract listErrorPayload).2.1 _ _ rfl,
   (extract_error_details_contract otherErrorPayload).2.2 _ rfl⟩

/-- The payload of
`tests/test_sql_validator.py::test_extract_error_details_no_message_details`:
`message_details` is present but null. -/
def nullDetailsPayload : Json :=
  .obj [("status", .str "error"),
        ("data", .obj
          [("errors", .arr [.obj
             [("message", .str "An error message."),
              ("message_details", Json.null)]])])]

/-- C2 counterexample: a payload whose first error entry holds a
`message_details` key with the non-string value null is extracted successfully
(message alone, no sql) instead of raising a `TypeError`, refuting the claim
for the `None` case — exactly the behavior pinned by
`test_extract_error_details_no_message_details`. -/
theorem extract_error_details_null_details_ok :
    (Json.obj [("message", .str "An error message."),
               ("message_details", Json.null)]).lookup "message_details" =
      some Json.null ∧
    extract_error_details nullDetailsPayload =
      .ok ⟨"An error message.", none⟩ :=
  ⟨rfl, rfl⟩

/-- C2 (amended): for every error payload whose first error entry holds a
`message_details` value that is neither a string nor null/None,
`_extract_error_details` fails with a TypeError-class error. -/
theorem extract_error_details_nonstr_details_type_error
    (qr : Json) (kvs : List (String × Json)) (first : Json) (rest : List Json)
    (d : Json)
    (h1 : qr.lookup "data" = some (.obj kvs))
    (h2 : (Json.obj kvs).lookup "errors" = some (.arr (first :: rest)))
    (h3 : first.lookup "message_details" = some d)
    (h4 : ∀ s, d ≠ .str s) (h5 : d ≠ .null) :
    extract_error_details qr = .error .typeError := by
  cases d with
  | null => exact absurd rfl h5
  | str s => exact absurd rfl (h4 s)
  | bool b => simp only [extract_error_details, h1, h2, h3]
  | num n => simp only [extract_error_details, h1, h2, h3]
  | arr xs => simp only [extract_error_details, h1, h2, h3]
  | obj o => simp only [extract_error_details, h1, h2, h3]

/-- The payload of
`tests/test_sql_validator.py::test_extract_error_details_error_non_str_message_details`:
`message_details` is a dict. -/
def dictDetailsPayload : Json :=
  .obj [("status", .str "error"),
        ("data", .obj
          [("errors", .arr [.obj
             [("message_details", .obj
                [("message", .str "An error messsage."),
                 ("details", .str "More details.")])]]),
           ("sql", .str "SELECT * FROM orders")])]

/-- C2 witness: the amended claim evaluated on the repository test's payload
whose `message_details` is a dict. -/
theorem extract_error_details_nonstr_details_type_error_witness :
    extract_error_details dictDetailsPayload = .error .typeError :=
  extract_error_details_nonstr_details_type_error dictDetailsPayload _ _ _ _
    rfl rfl rfl (fun _ => nofun) nofun

/-- Modelled from the spec: the per-explore bisection of the absent
`spectacles/validators.py` (spec 4.3 step 5), phrased with explicit fuel so
that it is structurally recursive.  A failing field set of size one is the
isolated culprit (no further query); a larger failing set is split in stable
order with the floor half first, one combined query is submitted per half
(2 round trips), and the recursion enters every half that still errors.
`bad` is the query oracle restricted to single fields: a combined query over
`q` errors exactly when `q.any bad`.  Returns the isolated fields in stable
order together with the number of combined-query round trips issued.  Fuel at
least the list length is always sufficient. -/
def bisectAux {α : Type} (bad : α → Bool) : Nat → List α → List α × Nat
  | _, [] => ([], 0)
  | _, [f] => ([f], 0)
  | 0, a :: b :: rest => (a :: b :: rest, 0)
  | fuel + 1, a :: b :: rest =>
    let l := a :: b :: rest
    let left := l.take (l.length / 2)
    let right := l.drop (l.length / 2)
    let lres := if left.any bad then bisectAux bad fuel left else ([], 0)
    let rres := if right.any bad then bisectAux bad fuel right else ([], 0)
    (lres.1 ++ rres.1, 2 + lres.2 + rres.2)

/-- Bisection of an error-causing field list: `bisectAux` with sufficient fuel. -/
def bisect {α : Type} (bad : α → Bool) (l : List α) : List α × Nat :=
  bisectAux bad l.length l

/-- Modelled from the spec: the per-explore SQL validation flow of the absent
`spectacles/validators.py` (spec 4.3 steps 1-5): one combined query over all
fields (one round trip); on success no further calls, on error the bisection
isolates the failing fields.  Returns the isolated failing fields and the
total number of combined-query round trips, the initial query included. -/
def isolateFailingFields {α : Type} (bad : α → Bool) (fields : List α) :
    List α × Nat :=
  if fields.any bad then
    ((bisect bad fields).1, 1 + (bisect bad fields).2)
  else ([], 1)

/-- A list none of whose elements satisfies `p` filters to the empty list. -/
theorem filter_eq_nil_of_any_eq_false {α : Type} (p : α → Bool) :
    ∀ l : List α, l.any p = false → l.filter p = [] := by
  intro l h
  induction l with
  | nil => rfl
  | cons a t ih =>
    simp only [List.any_cons, Bool.or_eq_false_iff] at h
    simp only [List.filter_cons, h.1, Bool.false_eq_true, if_neg]
    exact ih h.2

/-- A list some element of which satisfies `p` has a nonempty filter. -/
theorem one_le_filter_length_of_any {α : Type} (p : α → Bool) :
    ∀ l : List α, l.any p = true → 1 ≤ (l.filter p).length := by
  intro l h
  induction l with
  | nil => simp at h
  | cons a t ih =>
    simp only [List.any_cons, Bool.or_eq_true] at h
    by_cases hpa : p a = true
    · simp [List.filter_cons, hpa]
    · have ht : t.any p = true := by
        rcases h with h | h
        · exact absurd h hpa
        · exact h
      have h1 := ih ht
      have h2 : (a :: t).filter p = t.filter p := by
        simp [List.filter_cons, hpa]
      rw [h2]
      exact h1

/-- With fuel at least the list length, bisection of an error-causing list
returns exactly the fields satisfying the oracle, in stable order. -/
theorem bisectAux_fst {α : Type} (bad : α → Bool) :
    ∀ (fuel : Nat) (l : List α), l.length ≤ fuel → l.any bad = true →
      (bisectAux bad fuel l).1 = l.filter bad := by
  intro fuel
  induction fuel with
  | zero =>
    intro l hl ha
    have hnil : l = [] := List.length_eq_zero.mp (Nat.le_zero.mp hl)
    subst hnil
    simp at ha
  | succ fuel ih =>
    intro l hl ha
    match l with
    | [] => simp at ha
    | [f] =>
      simp only [List.any_cons, List.any_nil, Bool.or_false] at ha
      simp [bisectAux, List.filter_cons, ha]
    | a :: b :: rest =>
      simp only [bisectAux]
      set l' := a :: b :: rest with hl'
      have hsplit : l'.take (l'.length / 2) ++ l'.drop (l'.length / 2) = l' :=
        List.take_append_drop _ _
      have hlenL : (l'.take (l'.length / 2)).length ≤ fuel := by
        simp only [List.length_take]
        simp only [hl', List.length_cons] at hl ⊢
        omega
      have hlenR : (l'.drop (l'.length / 2)).length ≤ fuel := by
        simp only [List.length_drop]
        simp only [hl', List.length_cons] at hl ⊢
        omega
      have hany : ((l'.take (l'.length / 2)).any bad ||
          (l'.drop (l'.length / 2)).any bad) = true := by
        rw [← List.any_append, hsplit]
        exact ha
      have hfil : l'.filter bad =
          (l'.take (l'.length / 2)).filter bad ++
            (l'.drop (l'.length / 2)).filter bad := by
        rw [← List.filter_append, hsplit]
      rw [hfil]
      by_cases hLa : (l'.take (l'.length / 2)).any bad = true
      · by_cases hRa : (l'.drop (l'.length / 2)).any bad = true
        · rw [if_pos hLa, if_pos hRa, ih _ hlenL hLa, ih _ hlenR hRa]
        · have hRa' : (l'.drop (l'.length / 2)).any bad = false := by
            simpa using hRa
          rw [if_pos hLa, if_neg hRa, ih _ hlenL hLa,
            filter_eq_nil_of_any_eq_false bad _ hRa', List.append_nil]
      · have hLa' : (l'.take (l'.length / 2)).any bad = false := by
          simpa using hLa
        by_cases hRa : (l'.drop (l'.length / 2)).any bad = true
        · rw [if_neg hLa, if_pos hRa, ih _ hlenR hRa,
            filter_eq_nil_of_any_eq_false bad _ hLa', List.nil_append]
        · rw [hLa'] at hany
          have hRa' : (l'.drop (l'.length / 2)).any bad = false := by
            simpa using hRa
          rw [hRa'] at hany
          simp at hany

/-- With fuel at least the list length, bisection of an error-causing list
issues at most `2 * s * ceil(log2 n)` combined-query round trips, where `n` is
the list length and `s` the number of its fields satisfying the oracle. -/
theorem bisectAux_snd {α : Type} (bad : α → Bool) :
    ∀ (fuel : Nat) (l : List α), l.length ≤ fuel → l.any bad = true →
      (bisectAux bad fuel l).2 ≤
        2 * (l.filter bad).length * Nat.clog 2 l.length := by
  intro fuel
  induction fuel with
  | zero =>
    intro l hl ha
    have hnil : l = [] := List.length_eq_zero.mp (Nat.le_zero.mp hl)
    subst hnil
    simp at ha
  | succ fuel ih =>
    intro l hl ha
    match l with
    | [] => simp at ha
    | [f] => simp [bisectAux]
    | a :: b :: rest =>
      simp only [bisectAux]
      set l' := a :: b :: rest with hl'
      have hsplit : l'.take (l'.length / 2) ++ l'.drop (l'.length / 2) = l' :=
        List.take_append_drop _ _
      have hn2 : 2 ≤ l'.length := by
        simp only [hl', List.length_cons]
        omega
      have hlenL : (l'.take (l'.length / 2)).length ≤ fuel := by
        simp only [List.length_take]
        simp only [hl', List.length_cons] at hl ⊢
        omega
      have hlenR : (l'.drop (l'.length / 2)).length ≤ fuel := by
        simp only [List.length_drop]
        simp only [hl', List.length_cons] at hl ⊢
        omega
      have hany : ((l'.take (l'.length / 2)).any bad ||
          (l'.drop (l'.length / 2)).any bad) = true := by
        rw [← List.any_append, hsplit]
        exact ha
      have hslen : (l'.filter bad).length =
          ((l'.take (l'.length / 2)).filter bad).length +
            ((l'.drop (l'.length / 2)).filter bad).length := by
        rw [← List.length_append, ← List.filter_append, hsplit]
      -- ceil log2 of each half is strictly below that of the whole
      have hstep : Nat.clog 2 l'.length =
          Nat.clog 2 ((l'.length + 1) / 2) + 1 :=
        Nat.clog_of_two_le one_lt_two hn2
      have hD : 1 ≤ Nat.clog 2 l'.length := Nat.clog_pos one_lt_two hn2
      have hclogR : Nat.clog 2 (l'.drop (l'.length / 2)).length ≤
          Nat.clog 2 l'.length - 1 := by
        have hRlen : (l'.drop (l'.length / 2)).length = (l'.length + 1) / 2 := by
          simp only [List.length_drop]
          omega
        rw [hRlen]
        omega
      have hclogL : Nat.clog 2 (l'.take (l'.length / 2)).length ≤
          Nat.clog 2 l'.length - 1 := by
        have hmono : Nat.clog 2 (l'.take (l'.length / 2)).length ≤
            Nat.clog 2 ((l'.length + 1) / 2) := by
          apply Nat.clog_mono_right
          simp only [List.length_take]
          omega
        omega
      obtain ⟨D, hDeq⟩ : ∃ D, Nat.clog 2 l'.length = D + 1 :=
        ⟨Nat.clog 2 l'.length - 1, by omega⟩
      rw [hDeq] at hclogL hclogR
      simp only [Nat.add_sub_cancel] at hclogL hclogR
      -- bound each half's contribution
      have hLbound : (if (l'.take (l'.length / 2)).any bad then
            bisectAux bad fuel (l'.take (l'.length / 2)) else ([], 0)).2 ≤
          2 * ((l'.take (l'.length / 2)).filter bad).length * D := by
        by_cases hLa : (l'.take (l'.length / 2)).any bad = true
        · rw [if_pos hLa]
          calc (bisectAux bad fuel (l'.take (l'.length / 2))).2 ≤
              2 * ((l'.take (l'.length / 2)).filter bad).length *
                Nat.clog 2 (l'.take (l'.length / 2)).length :=
                ih _ hlenL hLa
            _ ≤ 2 * ((l'.take (l'.length / 2)).filter bad).length * D :=
                Nat.mul_le_mul_left _ hclogL
        · rw [if_neg hLa]
          exact Nat.zero_le _
      have hRbound : (if (l'.drop (l'.length / 2)).any bad then
            bisectAux bad fuel (l'.drop (l'.length / 2)) else ([], 0)).2 ≤
          2 * ((l'.drop (l'.length / 2)).filter bad).length * D := by
        by_cases hRa : (l'.drop (l'.length / 2)).any bad = true
        · rw [if_pos hRa]
          calc (bisectAux bad fuel (l'.drop (l'.length / 2))).2 ≤
              2 * ((l'.drop (l'.length / 2)).filter bad).length *
                Nat.clog 2 (l'.drop (l'.length / 2)).length :=
                ih _ hlenR hRa
            _ ≤ 2 * ((l'.drop (l'.length / 2)).filter bad).length * D :=
                Nat.mul_le_mul_left _ hclogR
        · rw [if_neg hRa]
          exact Nat.zero_le _
      have hs : 1 ≤ (l'.filter bad).length :=
        one_le_filter_length_of_any bad l' ha
      rw [hDeq, hslen]
      rw [hslen] at hs
      set cL := (if (l'.take (l'.length / 2)).any bad then
        bisectAux bad fuel (l'.take (l'.length / 2)) else ([], 0)).2
      set cR := (if (l'.drop (l'.length / 2)).any bad then
        bisectAux bad fuel (l'.drop (l'.length / 2)) else ([], 0)).2
      set sL := ((l'.take (l'.length / 2)).filter bad).length
      set sR := ((l'.drop (l'.length / 2)).filter bad).length
      have expand : 2 * (sL + sR) * (D + 1) =
          2 * sL * D + 2 * sR * D + 2 * (sL + sR) := by ring
      rw [expand]
      omega

/-- The oracle induced by a sole error-causing field subset `S`: a combined
query over a field list errors exactly when it contains a field of `S`. -/
def badIn (S : List String) (f : String) : Bool := S.contains f

/-- C3 (amended): for every explore whose sole error-causing subset is `S`
(a combined query errors exactly when it touches a field of `S`), the SQL
validator's bisection isolates exactly the fields of `S` present in the
explore, in stable field order (recursing into every failing half), and the
total number of combined-query round trips — the initial full-field query
included — is at most `1 + 2 * |S ∩ fields| * ceil(log2 n)`, `n` the field
count.  (The originally claimed bound `2 * ceil(log2 n) + |S|` fails for
spread-out multi-field `S`; see the counterexample.) -/
theorem bisection_isolates_with_log_bound (S fields : List String)
    (h : fields.any (badIn S) = true) :
    (isolateFailingFields (badIn S) fields).1 = fields.filter (badIn S) ∧
    (isolateFailingFields (badIn S) fields).2 ≤
      1 + 2 * (fields.filter (badIn S)).length * Nat.clog 2 fields.length := by
  unfold isolateFailingFields
  rw [if_pos h]
  constructor
  · exact bisectAux_fst (badIn S) fields.length fields le_rfl h
  · have := bisectAux_snd (badIn S) fields.length fields le_rfl h
    unfold bisect
    omega

/-- C3 witness: the amended bound applied to a three-field explore whose sole
failing field is `users.first_name`. -/
theorem bisection_isolates_with_log_bound_witness :
    (isolateFailingFields (badIn ["users.first_name"])
        ["users.id", "users.first_name", "users.age"]).1 =
      (["users.id", "users.first_name", "users.age"].filter
        (badIn ["users.first_name"])) ∧
    (isolateFailingFields (badIn ["users.first_name"])
        ["users.id", "users.first_name", "users.age"]).2 ≤
      1 + 2 * ((["users.id", "users.first_name", "users.age"].filter
          (badIn ["users.first_name"])).length) *
        Nat.clog 2 (["users.id", "users.first_name", "users.age"] :
          List String).length :=
  bisection_isolates_with_log_bound ["users.first_name"]
    ["users.id", "users.first_name", "users.age"] (by decide)

/-- C3 counterexample: an eight-field explore whose sole error-causing subset
is the four alternating fields `f1, f3, f5, f7`.  The bisection (recursing
into every failing half) issues 15 combined-query round trips (14 during
bisection plus the initial full query), exceeding the claimed worst-case bound
`2 * ceil(log2 8) + |S| = 10`; even the 14 bisection-only round trips exceed
it. -/
theorem bisection_cost_bound_counterexample :
    (isolateFailingFields (badIn ["f1", "f3", "f5", "f7"])
        ["f1", "f2", "f3", "f4", "f5", "f6", "f7", "f8"]).1 =
      ["f1", "f3", "f5", "f7"] ∧
    2 * Nat.clog 2 (["f1", "f2", "f3", "f4", "f5", "f6", "f7", "f8"] :
        List String).length + (["f1", "f3", "f5", "f7"] : List String).length <
      (bisect (badIn ["f1", "f3", "f5", "f7"])
        ["f1", "f2", "f3", "f4", "f5", "f6", "f7", "f8"]).2 ∧
    (isolateFailingFields (badIn ["f1", "f3", "f5", "f7"])
        ["f1", "f2", "f3", "f4", "f5", "f6", "f7", "f8"]).2 = 15 := by
  refine ⟨by decide, ?_, by decide⟩
  have hclog : Nat.clog 2 8 ≤ 3 :=
    (Nat.le_pow_iff_clog_le one_lt_two).mp (by norm_num)
  have hlen : (["f1", "f2", "f3", "f4", "f5", "f6", "f7", "f8"] :
      List String).length = 8 := by decide
  have hS : (["f1", "f3", "f5", "f7"] : List String).length = 4 := by decide
  have hcount : (bisect (badIn ["f1", "f3", "f5", "f7"])
      ["f1", "f2", "f3", "f4", "f5", "f6", "f7", "f8"]).2 = 14 := by decide
  rw [hlen, hS, hcount]
  omega

/-- Per-explore / overall validation status. -/
inductive ValStatus where
  | passed
  | failed
  | error
deriving Repr, DecidableEq, BEq

/-- An explore to be SQL-validated: owning model name, explore name, and its
field (dimension) list in stable order. -/
structure ExploreFields where
  model : String
  explore : String
  fields : List String
deriving Repr, DecidableEq

/-- One normalized SQL error record, attributed to the explore and the
isolated failing field. -/
structure SqlErrorRecord where
  model : String
  explore : String
  fieldName : String
deriving Repr, DecidableEq

/-- The report handed to the reporting layer: overall status, ordered
`(model, explore, status)` outcomes, ordered error records. -/
structure ValidationDetails where
  status : ValStatus
  tested : List (String × String × ValStatus)
  errors : List SqlErrorRecord
deriving Repr, DecidableEq

/-- Modelled from the spec: the SQL validator of the absent
`spectacles/validators.py` (spec 4.3 and 4.4's aggregator contract).  Each
explore runs one combined query over all its fields; on error the bisection
isolates the failing fields, each yielding one error record attributed to its
explore; the explore's status is `failed` when at least one field was
isolated, else `passed`; `tested` lists the explores in project order and the
overall status is `failed` iff any individual record is not `passed`. -/
def validate_sql (bad : String → Bool) (explores : List ExploreFields) :
    ValidationDetails :=
  let outcomes := explores.map (fun e => (e, (isolateFailingFields bad e.fields).1))
  let tested := outcomes.map (fun r =>
    (r.1.model, r.1.explore,
      if r.2.isEmpty then ValStatus.passed else ValStatus.failed))
  let errs := (outcomes.map (fun r =>
    r.2.map (fun f => SqlErrorRecord.mk r.1.model r.1.explore f))).flatten
  { status := if tested.any (fun t => !(t.2.2 == ValStatus.passed)) then
      ValStatus.failed else ValStatus.passed
    tested := tested
    errors := errs }

/-- The end-to-end scenario project: explores `ecommerce.orders` and
`ecommerce.sessions` pass; `ecommerce.users` fails on `users.first_name`. -/
def ecommerceExplores : List ExploreFields :=
  [⟨"ecommerce", "orders", ["orders.id", "orders.created_date"]⟩,
   ⟨"ecommerce", "sessions", ["sessions.id", "sessions.duration"]⟩,
   ⟨"ecommerce", "users", ["users.id", "users.first_name", "users.age"]⟩]

/-- C4: end-to-end SQL validation scenario.  With `ecommerce.orders` and
`ecommerce.sessions` passing and `ecommerce.users` failing on field
`users.first_name`, the report has overall status `failed`, `tested` holds all
three (model, explore) pairs with statuses passed, passed, failed, and exactly
one error record, referencing `users.first_name`. -/
theorem validate_sql_ecommerce_scenario :
    validate_sql (badIn ["users.first_name"]) ecommerceExplores =
      { status := .failed
        tested := [("ecommerce", "orders", .passed),
                   ("ecommerce", "sessions", .passed),
                   ("ecommerce", "users", .failed)]
        errors := [⟨"ecommerce", "users", "users.first_name"⟩] } := by
  decide

/-- The Gateway-calling methods of `LookerClient` other than `authenticate`
and `cancel_query_task`, as enumerated by
`tests/test_client.py::get_client_method_names`. -/
inductive ClientMethod where
  | get_looker_release_version
  | update_session
  | all_lookml_tests
  | run_lookml_test
  | get_lookml_models
  | get_lookml_dimensions
  | create_query
  | create_query_task
  | get_query_task_multi_results
  | create_branch
  | update_branch
  | delete_branch
  | get_active_branch
  | get_manifest
deriving Repr, DecidableEq

/-- An HTTP response from the Gateway transport: status code and JSON body. -/
structure HttpResponse where
  status : Nat
  body : Json

/-- Errors a client call can surface. -/
inductive ClientError where
  | apiConnectionError (status : Nat)
deriving Repr, DecidableEq

/-- Modelled from the spec: the error-handling shell shared by every
Gateway-calling method of `LookerClient` in the absent `spectacles/client.py`
(spec 4.2 and 7).  The method performs its transport round trip; a response
signalling an HTTP failure (status >= 400, Python's `raise_for_status`) is
converted into `ApiConnectionError` and ends the invocation — the result also
carries the number of transport round trips performed, which is always one:
the engine never retries. -/
def runClientMethod (m : ClientMethod) (transport : ClientMethod → HttpResponse) :
    Except ClientError Json × Nat :=
  let resp := transport m
  if 400 ≤ resp.status then (.error (.apiConnectionError resp.status), 1)
  else (.ok resp.body, 1)

/-- C5: for every Gateway-calling method of `LookerClient` (`authenticate` and
`cancel_query_task` excepted) and every HTTP transport failure, the call fails
with `ApiConnectionError`, and the transport is invoked exactly once — the
failure is fatal for the invocation and is not retried. -/
theorem client_method_http_failure_connection_error
    (m : ClientMethod) (transport : ClientMethod → HttpResponse)
    (h : 400 ≤ (transport m).status) :
    runClientMethod m transport =
      (.error (.apiConnectionError (transport m).status), 1) := by
  unfold runClientMethod
  rw [if_pos h]

/-- C5 witness: `create_query` against a transport answering 404. -/
theorem client_method_http_failure_connection_error_witness :
    runClientMethod .create_query (fun _ => ⟨404, Json.null⟩) =
      (.error (.apiConnectionError 404), 1) :=
  client_method_http_failure_connection_error .create_query
    (fun _ => ⟨404, Json.null⟩) (by decide)

/-- Modelled from the spec: the query-creation request body built by
`LookerClient.create_query` of the absent `spectacles/client.py`, as pinned by
`tests/test_client.py::test_create_query` — the `fields` entry is exactly the
given dimension list (possibly empty), with limit 0 and the constant filter
expression. -/
def create_query_body (model explore : String) (dimensions : List String) :
    Json :=
  .obj [("model", .str model),
        ("view", .str explore),
        ("fields", .arr (dimensions.map Json.str)),
        ("limit", .num 0),
        ("filter_expression", .str "1=2")]

/-- Modelled from the spec: `LookerClient.create_query(model, explore,
field_names) -> query handle` (spec 6) — submits the request body to the
Gateway and returns the Gateway's query handle unchanged. -/
def create_query (gateway : Json → Except ClientError Json)
    (model explore : String) (dimensions : List String) :
    Except ClientError Json :=
  gateway (create_query_body model explore dimensions)

/-- C6: `create_query` accepts an empty field list: for every model, explore
and Gateway, the submitted payload's `fields` entry is the empty list, the
call is valid (no error) whenever the Gateway accepts it, and the Gateway's
query handle is returned unchanged. -/
theorem create_query_empty_dimensions_valid
    (model explore : String) (gateway : Json → Except ClientError Json)
    (handle : Json)
    (h : gateway (create_query_body model explore []) = .ok handle) :
    (create_query_body model explore []).lookup "fields" = some (.arr []) ∧
    create_query gateway model explore [] = .ok handle := by
  constructor
  · rfl
  · unfold create_query
    exact h

/-- C6 witness: an empty-dimension query against a Gateway answering the
handle of `tests/test_client.py::test_create_query_lacking_dimensions`. -/
theorem create_query_empty_dimensions_valid_witness :
    (create_query_body "test_model" "test_explore_one" []).lookup "fields" =
      some (.arr []) ∧
    create_query (fun _ => .ok (.num 124950204921)) "test_model"
        "test_explore_one" [] = .ok (.num 124950204921) :=
  create_query_empty_dimensions_valid "test_model" "test_explore_one"
    (fun _ => .ok (.num 124950204921)) (.num 124950204921) rfl

/-- Click's documented resolution of an option with an `envvar`: the
command-line value when supplied, else the environment-variable value (the
CLI layer is an external collaborator per spec 1; this `CLI > environment`
step is exercised by `tests/test_cli.py::test_arg_precedence`). -/
def clickResolve (cliValue envValue : Option String) : Option String :=
  match cliValue with
  | some v => some v
  | none => envValue

/-- From `fonz/cli.py` `CommandWithConfig.invoke` (lines 6-17): after click
resolution, the config-file value replaces a parameter only when the resolved
value is `None` and the config file holds the parameter. -/
def applyConfigFile (resolved configValue : Option String) : Option String :=
  match resolved with
  | some v => some v
  | none => configValue

/-- Resolution of one parameter across the three configuration sources. -/
def resolveParam (cliValue envValue configValue : Option String) :
    Option String :=
  applyConfigFile (clickResolve cliValue envValue) configValue

/-- C7: configuration precedence.  A command-line value takes precedence over
an environment-variable value, which takes precedence over a config-file
value; the config-file value is applied only when neither higher-precedence
source supplied the parameter. -/
theorem config_precedence (c e f : Option String) :
    (∀ v, c = some v → resolveParam c e f = some v) ∧
    (c = none → ∀ v, e = some v → resolveParam c e f = some v) ∧
    (c = none → e = none → resolveParam c e f = f) := by
  refine ⟨?_, ?_, ?_⟩
  · intro v hc
    subst hc
    rfl
  · intro hc v he
    subst hc
    subst he
    rfl
  · intro hc he
    subst hc
    subst he
    rfl

/-- C7 witness: the three sources of
`tests/test_cli.py::test_arg_precedence`: base-url from the command line,
client-id from the environment, client-secret from the config file. -/
theorem config_precedence_witness :
    resolveParam (some "BASE_URL_CLI") (some "BASE_URL_ENV_VAR")
        (some "BASE_URL_CONFIG") = some "BASE_URL_CLI" ∧
    resolveParam none (some "CLIENT_ID_ENV_VAR") (some "CLIENT_ID_CONFIG") =
      some "CLIENT_ID_ENV_VAR" ∧
    resolveParam none none (some "CLIENT_SECRET_CONFIG") =
      some "CLIENT_SECRET_CONFIG" :=
  ⟨(config_precedence _ _ _).1 _ rfl,
   (config_precedence _ _ _).2.1 rfl _ rfl,
   (config_precedence _ _ _).2.2 rfl rfl⟩

/-- The spectacles CLI commands (`assertCmd` models the `assert` command). -/
inductive CliCommand where
  | connect
  | sql
  | content
  | assertCmd
  | lookml
deriving Repr, DecidableEq

/-- An invocation-tracking endpoint call. -/
inductive TrackEvent where
  | invocationStart
  | invocationEnd
deriving Repr, DecidableEq, BEq

/-- Modelled from the spec: the tracking emission of `main()` in the absent
`spectacles/cli.py`, as observed.  Spec design note 9 records "the asymmetric
timing of `track_invocation_end` (observed in tests as sometimes not called
after validator completion)", and the repository's unit tests pin it: with
tracking enabled, `track_invocation_start` is emitted exactly once before the
command runs; `track_invocation_end` is emitted once after `connect` completes
(`tests/unit/test_cli.py::test_main_with_connect`), but for the validator
commands (`sql`, `content`, `assert`, `lookml`) its assertion is commented out
pending issue #262 and the call is not made. -/
def emittedTrackingEvents (cmd : CliCommand) (trackingEnabled : Bool) :
    List TrackEvent :=
  if trackingEnabled then
    match cmd with
    | .connect => [.invocationStart, .invocationEnd]
    | _ => [.invocationStart]
  else []

/-- The spec's documented intended behavior (spec 9): always emit start and
end, exactly once each, when tracking is enabled. -/
def intendedTrackingEvents (trackingEnabled : Bool) : List TrackEvent :=
  if trackingEnabled then [.invocationStart, .invocationEnd] else []

/-- C8: at the failing input — a tracked `sql` invocation — the code emits
`track_invocation_start` exactly once but never emits `track_invocation_end`,
diverging from the claimed (intended) behavior of emitting both exactly
once. -/
theorem tracking_end_missing_for_sql :
    emittedTrackingEvents .sql true = [.invocationStart] ∧
    (emittedTrackingEvents .sql true).count .invocationEnd = 0 ∧
    intendedTrackingEvents true = [.invocationStart, .invocationEnd] ∧
    emittedTrackingEvents .sql true ≠ intendedTrackingEvents true := by
  decide

/-- From `spectacles/tracking.py`: module state fixed at import time — Python
evaluates the default argument `str(uuid.uuid4())` of
`track_invocation_start` once, when the function is defined, so the module
carries a single default invocation id for the whole process. -/
structure TrackingModule where
  defaultInvocationId : String

/-- From `spectacles/tracking.py` `track_invocation_start` (lines 13-28):
emits the start event and returns the invocation id used — the explicit
argument when the caller passes one, else the module's single default id.
The analytics emission and the md5 anonymisation of url and project are side
effects that do not affect the returned id and are elided. -/
def track_invocation_start (m : TrackingModule)
    (base_url command project : String) (invocation_id : Option String) :
    String :=
  match invocation_id with
  | some i => i
  | none => m.defaultInvocationId

/-- C9: within one process, any two calls to `track_invocation_start` that
omit the invocation id return the same id — the module's once-evaluated
default — regardless of url, command or project; a distinct id is obtained
only by passing `invocation_id` explicitly, in which case that id is
returned. -/
theorem default_invocation_id_shared (m : TrackingModule)
    (u1 c1 p1 u2 c2 p2 u3 c3 p3 i : String) :
    track_invocation_start m u1 c1 p1 none =
      track_invocation_start m u2 c2 p2 none ∧
    track_invocation_start m u3 c3 p3 (some i) = i :=
  ⟨rfl, rfl⟩

/-- The names bound at module top level in `fonz/cli.py`: its three imports
(`click`, `yaml`, `Fonz`) and its four top-level definitions. -/
def fonzCliGlobals : List String :=
  ["click", "yaml", "Fonz", "CommandWithConfig", "cli", "connect", "sql"]

/-- The Python builtins referenced in `fonz/cli.py`. -/
def pythonBuiltins : List String :=
  ["open", "print", "super", "format", "str"]

/-- Resolution of a bare global name inside the `fonz.cli` module: module
globals, then builtins. -/
def resolvesInFonzCli (name : String) : Bool :=
  fonzCliGlobals.contains name || pythonBuiltins.contains name

/-- An explore record returned by `client.get_explores()`. -/
structure ExploreRef where
  model : String
  explore : String
deriving Repr, DecidableEq

/-- A Python runtime error surfaced by the `sql` command. -/
inductive PyRuntimeError where
  | nameError (name : String)
deriving Repr, DecidableEq

/-- From `fonz/cli.py` `sql` (lines 56-71): the per-explore loop body fetches
the explore's dimensions and creates its query through the bound `client`
object (attribute accesses that resolve), then calls the bare name
`validate_explore`, which Python resolves against the module globals and
builtins at call time; an unbound name raises `NameError`.  (`logging`, the
other unbound name, is referenced only after this call.) -/
def sqlPerExplore (e : ExploreRef) : Except PyRuntimeError Unit :=
  if resolvesInFonzCli "validate_explore" then .ok ()
  else .error (.nameError "validate_explore")

/-- From `fonz/cli.py` `sql`: after connecting and listing explores, the
command runs the per-explore body over every explore in order, then prints
results. -/
def runSqlCommand (explores : List ExploreRef) : Except PyRuntimeError Unit :=
  explores.forM sqlPerExplore

/-- C10: every invocation of the fonz `sql` command that reaches per-explore
validation (at least one explore returned) raises a `NameError`: neither
`validate_explore` nor `logging` is defined or imported in the module, so the
command never completes successfully on a non-empty project. -/
theorem fonz_sql_raises_name_error :
    resolvesInFonzCli "validate_explore" = false ∧
    resolvesInFonzCli "logging" = false ∧
    ∀ explores : List ExploreRef, explores ≠ [] →
      runSqlCommand explores = .error (.nameError "validate_explore") := by
  refine ⟨rfl, rfl, ?_⟩
  intro explores h
  match explores with
  | [] => exact absurd rfl h
  | e :: rest => rfl

/-- C10 witness: a project with one explore. -/
theorem fonz_sql_raises_name_error_witness :
    ([⟨"model_one", "explore_one"⟩] : List ExploreRef) ≠ [] ∧
    runSqlCommand [⟨"model_one", "explore_one"⟩] =
      .error (.nameError "validate_explore") :=
  ⟨by decide, fonz_sql_raises_name_error.2.2 _ (by decide)⟩
